import Mathlib

/-!
Shallow embedding of the interview-simulator orchestration engine.

The embedding follows the two Python sources:
  * `Interviewer2.py`   — the text-only variant, embedded in namespace `IV2`;
  * `InterviewerSpeech.py` — the speech-capable variant, embedded in namespace `SP`.

External effects are made explicit inputs:
  * a call to the generative backend is an `AIResult` / `AnalysisResult` value
    supplied per turn (`.fail` stands for an exception or an empty response;
    `.parsed`/`.unparsable` stand for the outcome of `json.loads` on the
    response text);
  * `random.choice` / `random.randint` draws are injected `Nat` indices,
    reduced modulo the pool size at the use site;
  * user input is a per-turn string, exactly as the adapter would return it.

Everything is computable, so concrete sessions evaluate by `decide`/`rfl`.
-/

set_option maxRecDepth 10000

namespace InterviewSim

/-- Python `str.strip(chars)`: drop the characters matching `p` from both ends
of the string. -/
def pyStrip (p : Char → Bool) (s : String) : String :=
  String.mk (((s.data.dropWhile p).reverse.dropWhile p).reverse)

/-- Python `str.strip()` (no arguments): strip whitespace from both ends. -/
def pyStripWs (s : String) : String := pyStrip Char.isWhitespace s

/-- Outcome of one `model.generate_content` call used for question text:
either an exception / falsy response (`fail`) or a successful response whose
`.text` is `text`. -/
inductive AIResult where
  | fail
  | ok (text : String)
deriving Repr, DecidableEq

/-- Outcome of one analysis call, abstracted at the `json.loads` boundary:
`fail` is an exception or empty response, `unparsable` a `json.JSONDecodeError`,
and `parsed` a successfully parsed JSON object whose optional fields record
which keys were present (a JSON `null` for `follow_up` is `none`). -/
inductive AnalysisResult where
  | fail
  | unparsable
  | parsed (feedback : Option String) (score : Option Int)
      (strengths : Option (List String)) (improvements : Option (List String))
      (followUpQ : Option String) (keyInsights : Option (List String))
deriving Repr, DecidableEq

/-- The analysis dict attached to a recorded response in `Interviewer2.py`
(after the required-field validation, all of `feedback`, `score`, `strengths`
and `improvements` are present). -/
structure Analysis where
  feedback : String
  score : Int
  strengths : List String
  improvements : List String
  follow_up : Option String
deriving Repr, DecidableEq

/-- One recorded response (`response_data` in `Interviewer2.py`). -/
structure Turn where
  question : String
  answer : String
  response_time : Nat
  timestamp : String
  analysis : Analysis
  score : Int
  follow_up : Option (String × String)
deriving Repr, DecidableEq

/-- The result of parsing the overall-analysis JSON; only the `summary`
field is ever produced by the engine itself, the remaining keys are opaque
pass-through content from the model. -/
structure OverallReport where
  summary : String
deriving Repr, DecidableEq

/-- Observable outcome of `end_interview`: the overall analysis (absent when
the method returns early), the average score it computes, and whether the
save prompt was offered. -/
structure EndResult where
  report : Option OverallReport
  average : Option Rat
  savePromptOffered : Bool
deriving Repr, DecidableEq

/-- All the external events one iteration of the interview loop can consume:
the backend outcomes for question generation (primary call, regeneration
call), the injected random indices, the user's input, the analysis backend
outcome, and the inputs read at the follow-up and continue prompts. -/
structure TurnInput where
  qBackend : AIResult
  qRegen : Option String
  qRand : Nat
  userInput : String
  aBackend : AnalysisResult
  aRand : Nat
  response_time : Nat
  timestamp : String
  followUpAnswer : String
  contChoice : String
deriving Repr, DecidableEq

/-- Python `str.lower()` over the ASCII range (the only range the control
tokens exercise), as a list-based map so that concrete sessions evaluate. -/
def pyLower (s : String) : String := String.mk (s.data.map Char.toLower)

/-- Python truthiness of an optional string (`None` and `""` are falsy). -/
def truthyOpt (o : Option String) : Bool := decide (o.getD "" ≠ "")

/-- `l.getD i d` is a member of `l` whenever `i < l.length`. -/
theorem getD_lt_mem {α : Type} :
    ∀ (l : List α) (i : Nat) (d : α), i < l.length → l.getD i d ∈ l := by
  intro l
  induction l with
  | nil => intro i d h; simp at h
  | cons a t ih =>
    intro i d h
    cases i with
    | zero => simp [List.getD]
    | succ n =>
      have ht := ih n d (by simpa using h)
      simpa [List.getD] using Or.inr (by simpa [List.getD] using ht)

/-- `l.getD (i % l.length) d` is a member of `l` whenever `l` is non-empty;
this is how an injected random index models `random.choice(l)`. -/
theorem getD_mod_mem {α : Type} (l : List α) (i : Nat) (d : α) (h : l ≠ []) :
    l.getD (i % l.length) d ∈ l := by
  have hl : 0 < l.length := List.length_pos.mpr h
  exact getD_lt_mem l (i % l.length) d (Nat.mod_lt _ hl)

namespace IV2

/-! ### `Interviewer2.py` — question generation -/

/-- `fallback_questions["behavioral"]` in `generate_question`. -/
def behavioralBank : List String :=
  [ "Tell me about a time when you had to work with a difficult team member.",
    "Describe a situation where you had to meet a tight deadline.",
    "Give me an example of when you had to learn something new quickly.",
    "Tell me about a time you failed and what you learned from it.",
    "Describe a situation where you had to give difficult feedback.",
    "Tell me about a time you had to adapt to a major change at work.",
    "Give me an example of when you went above and beyond for a project.",
    "Describe a time when you had to resolve a conflict between team members." ]

/-- `fallback_questions["technical"]`. -/
def technicalBank : List String :=
  [ "Walk me through your approach to debugging a complex issue.",
    "How do you stay updated with the latest technologies in your field?",
    "Describe a technical challenge you solved recently.",
    "What's your process for code review and quality assurance?",
    "How do you approach performance optimization?",
    "Tell me about a time you had to learn a new technology quickly.",
    "Describe your experience with version control and collaboration tools.",
    "How do you handle technical debt in your projects?" ]

/-- `fallback_questions["general"]`. -/
def generalBank : List String :=
  [ "What motivates you in your career?",
    "Where do you see yourself in 5 years?",
    "What's your greatest professional achievement?",
    "How do you handle stress and pressure?",
    "What are your career goals?",
    "How do you prioritize your work?",
    "What's the most important thing you've learned recently?",
    "How do you approach continuous learning?" ]

/-- `fallback_questions["case_study"]`. -/
def caseStudyBank : List String :=
  [ "How would you approach designing a scalable system?",
    "Walk me through how you would optimize a slow-performing application.",
    "How would you handle a situation where requirements change mid-project?",
    "Describe your approach to data migration between systems.",
    "How would you design a user authentication system?",
    "What's your strategy for handling system downtime?",
    "How would you approach testing a complex integration?",
    "Describe how you would implement a new feature with minimal risk." ]

/-- `fallback_questions.get(self.interview_type, fallback_questions["general"])`:
the category-keyed bank, defaulting to the general bank for unknown keys. -/
def fallbackBank (interview_type : String) : List String :=
  if interview_type = "behavioral" then behavioralBank
  else if interview_type = "technical" then technicalBank
  else if interview_type = "general" then generalBank
  else if interview_type = "case_study" then caseStudyBank
  else generalBank

/-- `set.add`: insert a question into `asked_questions` unless already present
(the set is modelled as a duplicate-free list). -/
def addQ (asked : List String) (q : String) : List String :=
  if q ∈ asked then asked else asked ++ [q]

/-- The demo-mode branch of `generate_question` (lines 85-143): filter the
bank for unused questions, on exhaustion clear `asked_questions` and take the
first five bank entries, pick one and record it.  Returns the question and
the updated `asked_questions`. -/
def fallbackGenerate (interview_type : String) (asked : List String) (r : Nat) :
    String × List String :=
  let questions := fallbackBank interview_type
  let available := questions.filter (fun q => decide (q ∉ asked))
  if available = [] then
    let available := questions.take 5
    let selected := available.getD (r % available.length) ""
    (selected, addQ [] selected)
  else
    let selected := available.getD (r % available.length) ""
    (selected, addQ asked selected)

/-- The five questions of the exception branch of `generate_question`
(lines 234-240). -/
def errorFallbackQuestions : List String :=
  [ "Tell me about a time when you overcame a significant challenge.",
    "Describe a project where you had to learn new skills quickly.",
    "How do you handle working under pressure?",
    "What's your greatest professional achievement?",
    "Tell me about a time you had to work with a difficult team member." ]

/-- The exception branch of `generate_question` (lines 242-250): return the
first error-fallback question not yet asked; if all were used, clear the set
and return the first one. -/
def errorFallback (asked : List String) : String × List String :=
  match errorFallbackQuestions.find? (fun q => decide (q ∉ asked)) with
  | some fb => (fb, addQ asked fb)
  | none =>
    let q0 := errorFallbackQuestions.getD 0 ""
    (q0, addQ [] q0)

/-- The cleanup applied to AI-generated question text:
`text.strip().strip(DOUBLEQUOTE).strip(QUOTE).strip()` (lines 188-191 and 211). -/
def cleanAIQuestion (t : String) : String :=
  pyStripWs (pyStrip (· == Char.ofNat 39) (pyStrip (· == Char.ofNat 34) (pyStripWs t)))

/-- `AIInterviewBot.generate_question` of `Interviewer2.py` (lines 83-250),
as a function of the interview type, the current `asked_questions`, the
presence of the model, the backend outcomes and the injected random index.
Returns the chosen question together with the updated `asked_questions`. -/
def generate_question (interview_type : String) (asked : List String)
    (modelPresent : Bool) (backend : AIResult) (regen : Option String) (r : Nat) :
    String × List String :=
  if modelPresent = false then
    fallbackGenerate interview_type asked r
  else
    match backend with
    | .fail => errorFallback asked
    | .ok text =>
      if text = "" then errorFallback asked
      else
        let question := cleanAIQuestion text
        if question = "" ∨ question.length < 10 then errorFallback asked
        else
          let question :=
            if question ∈ asked then
              match regen with
              | some t2 => if t2 = "" then question else cleanAIQuestion t2
              | none => question
            else question
          (question, addQ asked question)

/-! ### `Interviewer2.py` — response analysis -/

/-- The placeholder used for out-of-range pool indices; never reached, since
random indices are reduced modulo the pool length. -/
def junkAnalysis : Analysis := ⟨"", 0, [], [], none⟩

/-- The demo-mode analysis pool inlined in `analyze_response` (lines 256-278). -/
def fallback_analyses : List Analysis :=
  [ { feedback := "Great answer! You provided good detail and structure.",
      score := 8,
      strengths := ["Clear communication", "Good examples"],
      improvements := ["Consider adding more specific metrics or outcomes"],
      follow_up := none },
    { feedback := "Excellent response! You demonstrated strong problem-solving skills.",
      score := 7,
      strengths := ["Logical thinking", "Practical approach"],
      improvements := ["Try to quantify your impact where possible"],
      follow_up := none },
    { feedback := "Well done! Your answer shows good self-awareness and growth mindset.",
      score := 9,
      strengths := ["Self-reflection", "Learning orientation"],
      improvements := ["Consider adding more technical details"],
      follow_up := none } ]

/-- The pool used by `_get_fallback_analysis` (lines 352-377). -/
def fallback_analyses_api : List Analysis :=
  [ { feedback := "Thank you for your detailed response! You provided good structure and examples.",
      score := 8,
      strengths := ["Clear communication", "Good examples"],
      improvements := ["Consider adding more specific metrics or outcomes"],
      follow_up := none },
    { feedback := "Excellent response! You demonstrated strong problem-solving skills and clear thinking.",
      score := 7,
      strengths := ["Logical thinking", "Practical approach"],
      improvements := ["Try to quantify your impact where possible"],
      follow_up := none },
    { feedback := "Well done! Your answer shows good self-awareness and a growth mindset.",
      score := 9,
      strengths := ["Self-reflection", "Learning orientation"],
      improvements := ["Consider adding more technical details"],
      follow_up := none } ]

/-- `AIInterviewBot._get_fallback_analysis`: `random.choice` over the pool,
with the draw injected as an index. -/
def get_fallback_analysis (r : Nat) : Analysis :=
  fallback_analyses_api.getD (r % fallback_analyses_api.length) junkAnalysis

/-- `AIInterviewBot.analyze_response` of `Interviewer2.py` (lines 252-350):
demo mode draws from the inline pool; with the model present, an exception or
a `json.JSONDecodeError` degrades to `_get_fallback_analysis`, and a parsed
object has its required fields filled with the neutral defaults
(`"Not provided"` for feedback, `0` for score, `[]` for the lists) when the
keys are missing.  `follow_up` is not a required field and is read with
`.get`. -/
def analyze_response (modelPresent : Bool) (backend : AnalysisResult) (r : Nat) :
    Analysis :=
  if modelPresent = false then
    fallback_analyses.getD (r % fallback_analyses.length) junkAnalysis
  else
    match backend with
    | .fail => get_fallback_analysis r
    | .unparsable => get_fallback_analysis r
    | .parsed fb sc stg im fu _ki =>
      { feedback := fb.getD "Not provided"
        score := sc.getD 0
        strengths := stg.getD []
        improvements := im.getD []
        follow_up := fu }

/-! ### `Interviewer2.py` — overall report and `end_interview` -/

/-- `AIInterviewBot.generate_overall_analysis` (lines 379-425): without a
model or without responses it returns the fixed success summary; otherwise
the parsed model JSON, degrading to the fixed unavailability summary on any
error. -/
def generate_overall_analysis (modelPresent : Bool) (responses : List Turn)
    (backend : Option OverallReport) : OverallReport :=
  if modelPresent = false ∨ responses = [] then
    { summary := "Interview completed successfully!" }
  else
    match backend with
    | some rep => rep
    | none => { summary := "Interview analysis unavailable due to technical issues." }

/-- `total_score = sum(r.get('score', 0) for r in self.responses)`. -/
def sumScores (rs : List Turn) : Int := (rs.map Turn.score).sum

/-- `avg_score = total_score / len(self.responses) if self.responses else 0`. -/
def avg_score (rs : List Turn) : Rat :=
  if rs = [] then 0 else (sumScores rs : Rat) / (rs.length : Rat)

/-- `AIInterviewBot.end_interview` (lines 595-648): with no responses it
prints a notice and returns early — no overall analysis is generated and the
save prompt is never offered; otherwise it generates the overall analysis,
computes the average score and offers the save prompt. -/
def end_interview (modelPresent : Bool) (responses : List Turn)
    (backend : Option OverallReport) : EndResult :=
  if responses = [] then ⟨none, none, false⟩
  else
    ⟨some (generate_overall_analysis modelPresent responses backend),
     some (avg_score responses), true⟩

/-! ### `Interviewer2.py` — the `conduct_interview` loop -/

/-- Mutable bot state observed by the loop: the interview type, the
`asked_questions` set and the ordered `responses` list. -/
structure BotState where
  interview_type : String
  asked_questions : List String
  responses : List Turn
deriving Repr, DecidableEq

/-- Result of one loop iteration: `halt` leaves the loop (the `end` command
or the continue prompt), `next` re-enters it with the given question count. -/
inductive StepRes where
  | halt (st : BotState)
  | next (count : Nat) (st : BotState)
deriving Repr, DecidableEq

/-- The state carried by a step result. -/
def stepState : StepRes → BotState
  | .halt st => st
  | .next _ st => st

/-- `max_questions = 10` in `Interviewer2.conduct_interview`. -/
def max_questions : Nat := 10

/-- The `response_data` record built for an accepted answer (lines 530-558 of
`Interviewer2.py`): the analysis, the stripped answer, the score read from
the analysis, and the optional follow-up exchange, attached only when the
analysis proposes a truthy follow-up and the stripped follow-up answer is
non-empty. -/
def recordedResponse (question : String) (modelPresent : Bool) (inp : TurnInput) :
    Turn :=
  let analysis := analyze_response modelPresent inp.aBackend inp.aRand
  let fuAnswer := pyStripWs inp.followUpAnswer
  let fu :=
    if truthyOpt analysis.follow_up = true ∧ fuAnswer ≠ "" then
      some (analysis.follow_up.getD "", fuAnswer)
    else none
  { question := question, answer := pyStripWs inp.userInput,
    response_time := inp.response_time, timestamp := inp.timestamp,
    analysis := analysis, score := analysis.score, follow_up := fu }

/-- One iteration of the `while` loop of `Interviewer2.conduct_interview`
(lines 478-568), assuming `question_count < max_questions` on entry: generate
a question (which updates `asked_questions`), read and strip the input,
dispatch on the control commands (`end`, `next`, `feedback` with at least one
response, empty input), otherwise record the analyzed response, increment the
counter, and consult the continue prompt when more questions remain. -/
def step (question_count : Nat) (st : BotState) (modelPresent : Bool)
    (inp : TurnInput) : StepRes :=
  let qr := generate_question st.interview_type st.asked_questions modelPresent
      inp.qBackend inp.qRegen inp.qRand
  let question := qr.1
  let st := { st with asked_questions := qr.2 }
  let response := pyStripWs inp.userInput
  if (pyLower response) = "end" then .halt st
  else if (pyLower response) = "next" then .next (question_count + 1) st
  else if (pyLower response) = "feedback" ∧ st.responses ≠ [] then .next question_count st
  else if response = "" then .next question_count st
  else
    let turn := recordedResponse question modelPresent inp
    let st := { st with responses := st.responses ++ [turn] }
    let qc := question_count + 1
    if qc < max_questions ∧ (pyLower inp.contChoice) = "end" then .halt st
    else .next qc st

/-- The `while question_count < max_questions` loop, consuming one
`TurnInput` per iteration; an exhausted input script simply stops the run. -/
def runTurns (modelPresent : Bool) : Nat → BotState → List TurnInput → BotState
  | _, st, [] => st
  | qc, st, inp :: rest =>
    if qc < max_questions then
      match step qc st modelPresent inp with
      | .halt st2 => st2
      | .next qc2 st2 => runTurns modelPresent qc2 st2 rest
    else st

/-- A script entry that is an ordinary accepted answer: non-empty after
stripping, not a control command, and not answering `end` at the continue
prompt. -/
def PlainEntry (inp : TurnInput) : Prop :=
  pyStripWs inp.userInput ≠ "" ∧
  pyLower (pyStripWs inp.userInput) ≠ "end" ∧
  pyLower (pyStripWs inp.userInput) ≠ "next" ∧
  pyLower (pyStripWs inp.userInput) ≠ "feedback" ∧
  (pyLower inp.contChoice) ≠ "end"

instance : DecidablePred PlainEntry := fun inp => by
  unfold PlainEntry; infer_instance

end IV2

namespace SP

/-! ### `InterviewerSpeech.py` — question generation and analysis -/

/-- The demo-mode question list of the speech variant (lines 262-273); note
the speech variant keeps no `asked_questions` set at all. -/
def fallbackQuestions : List String :=
  [ "Tell me about yourself and your background.",
    "Why are you interested in this position?",
    "What are your greatest strengths?",
    "Describe a challenging project you've worked on.",
    "How do you handle working under pressure?",
    "Tell me about a time you had to work with a difficult team member.",
    "What's your greatest accomplishment in your career so far?",
    "How do you stay updated with industry trends?",
    "Describe a time when you failed and what you learned from it.",
    "Why are you looking to leave your current position?" ]

/-- The three questions of the exception branch (lines 298-302). -/
def errorQuestions : List String :=
  [ "Tell me about a time when you overcame a significant challenge.",
    "Describe a project you're particularly proud of.",
    "How do you handle tight deadlines and pressure?" ]

/-- `AIInterviewBot.generate_question` of `InterviewerSpeech.py`
(lines 259-302): `random.choice` over the demo list without the model,
`response.text.strip()` on success, `random.choice` over the three error
questions on an exception.  No uniqueness tracking of any kind. -/
def generate_question (modelPresent : Bool) (backend : AIResult) (r : Nat) :
    String :=
  if modelPresent = false then
    fallbackQuestions.getD (r % fallbackQuestions.length) ""
  else
    match backend with
    | .ok text => pyStripWs text
    | .fail => errorQuestions.getD (r % errorQuestions.length) ""

/-- The analysis dict of the speech variant, field by field as read with
`.get` later on; the parsed JSON is returned unvalidated, so every key may be
absent. -/
structure SPAnalysis where
  feedback : Option String
  score : Option Int
  strengths : Option (List String)
  improvements : Option (List String)
  follow_up : Option String
  key_insights : Option (List String)
deriving Repr, DecidableEq

/-- `AIInterviewBot.analyze_response` of `InterviewerSpeech.py`
(lines 304-365): without the model a fixed dict whose score is
`random.randint(6, 9)`; with the model, the parsed JSON as-is, or the fixed
error dict (score 7) on any exception. -/
def analyze_response (modelPresent : Bool) (backend : AnalysisResult) (r : Nat) :
    SPAnalysis :=
  if modelPresent = false then
    { feedback := some "API not available. Great answer!"
      score := some (6 + (r % 4 : Nat) : Int)
      strengths := some ["Good communication", "Clear thinking"]
      improvements := some ["Consider more specific examples"]
      follow_up := none
      key_insights := none }
  else
    match backend with
    | .parsed fb sc stg im fu ki =>
      { feedback := fb, score := sc, strengths := stg, improvements := im,
        follow_up := fu, key_insights := ki }
    | _ =>
      { feedback := some "Thank you for your detailed response!"
        score := some 7
        strengths := some ["Clear communication"]
        improvements := some ["Consider adding more specific examples"]
        follow_up := none
        key_insights := some ["Shows good thinking"] }

/-- One recorded response of the speech variant (`response_data`,
lines 557-565), which additionally records the input method. -/
structure SPTurn where
  question : String
  answer : String
  response_time : Nat
  timestamp : String
  analysis : SPAnalysis
  score : Int
  input_method : String
  follow_up : Option (String × String)
deriving Repr, DecidableEq

/-- `AIInterviewBot.generate_overall_analysis` of `InterviewerSpeech.py`
(lines 367-429), at the same abstraction as the text variant. -/
def generate_overall_analysis (modelPresent : Bool) (responses : List SPTurn)
    (backend : Option OverallReport) : OverallReport :=
  if modelPresent = false ∨ responses = [] then
    { summary := "Interview completed successfully!" }
  else
    match backend with
    | some rep => rep
    | none => { summary := "Interview analysis unavailable due to technical issues." }

/-- `sum(r.get('score', 0) for r in self.responses)` for speech turns. -/
def sumScores (rs : List SPTurn) : Int := (rs.map SPTurn.score).sum

/-- The average score computed in the speech `end_interview`. -/
def avg_score (rs : List SPTurn) : Rat :=
  if rs = [] then 0 else (sumScores rs : Rat) / (rs.length : Rat)

/-- `AIInterviewBot.end_interview` of `InterviewerSpeech.py` (lines 683-771):
with no responses it prints a notice and returns early — no overall analysis
and no save prompt; otherwise the full report plus the save prompt. -/
def end_interview (modelPresent : Bool) (responses : List SPTurn)
    (backend : Option OverallReport) : EndResult :=
  if responses = [] then ⟨none, none, false⟩
  else
    ⟨some (generate_overall_analysis modelPresent responses backend),
     some (avg_score responses), true⟩

/-! ### `InterviewerSpeech.py` — the `conduct_interview` loop -/

/-- Loop-visible state of the speech bot: the speech-mode flag (it decides
the recorded `input_method`) and the responses. -/
structure SPState where
  speech_mode : Bool
  responses : List SPTurn
deriving Repr, DecidableEq

/-- Step result for the speech loop. -/
inductive SPStepRes where
  | halt (st : SPState)
  | next (count : Nat) (st : SPState)
deriving Repr, DecidableEq

/-- The state carried by a speech step result. -/
def stepState : SPStepRes → SPState
  | .halt st => st
  | .next _ st => st

/-- `max_questions = 12` in the speech `conduct_interview`. -/
def max_questions : Nat := 12

/-- The `response_data` record of the speech variant (lines 550-565): the
analysis, the raw answer, the score read with `.get('score', 0)`, the input
method, and the optional follow-up exchange, attached only when the analysis
proposes a truthy follow-up and the follow-up answer is non-empty and not
itself one of `next`/`end`/`feedback`. -/
def recordedResponse (question : String) (speechMode : Bool) (modelPresent : Bool)
    (inp : TurnInput) : SPTurn :=
  let analysis := analyze_response modelPresent inp.aBackend inp.aRand
  let fuAnswer := inp.followUpAnswer
  let fu :=
    if truthyOpt analysis.follow_up = true ∧ fuAnswer ≠ "" ∧
        (pyLower fuAnswer) ∉ ["next", "end", "feedback"] then
      some (analysis.follow_up.getD "", fuAnswer)
    else none
  { question := question, answer := inp.userInput,
    response_time := inp.response_time, timestamp := inp.timestamp,
    analysis := analysis, score := analysis.score.getD 0,
    input_method := if speechMode then "speech" else "text",
    follow_up := fu }

/-- One iteration of the `while` loop of the speech `conduct_interview`
(lines 502-612): generate a question, read the input as the adapter returned
it, dispatch on `end` / `next` / `repeat` / `feedback`-with-responses /
`help`, reject input that is empty or whose stripped text is shorter than 5
characters, otherwise record the analyzed response, increment the counter,
and consult the continue prompt when more questions remain. -/
def step (question_count : Nat) (st : SPState) (modelPresent : Bool)
    (inp : TurnInput) : SPStepRes :=
  let question := generate_question modelPresent inp.qBackend inp.qRand
  let response := inp.userInput
  if (pyLower response) = "end" then .halt st
  else if (pyLower response) = "next" then .next (question_count + 1) st
  else if (pyLower response) = "repeat" then .next question_count st
  else if (pyLower response) = "feedback" ∧ st.responses ≠ [] then .next question_count st
  else if (pyLower response) = "help" then .next question_count st
  else if response = "" ∨ (pyStripWs response).length < 5 then .next question_count st
  else
    let turn := recordedResponse question st.speech_mode modelPresent inp
    let st := { st with responses := st.responses ++ [turn] }
    let qc := question_count + 1
    if qc < max_questions ∧ (pyLower inp.contChoice) = "end" then .halt st
    else .next qc st

end SP

/-! ### Supporting lemmas -/

namespace IV2

/-- Inserting a question always makes it a member of the set. -/
theorem mem_addQ_self (asked : List String) (q : String) : q ∈ addQ asked q := by
  unfold addQ
  split
  · assumption
  · simp

/-- If the inserted question was already present, the set is unchanged. -/
theorem addQ_mem_eq (asked : List String) (q : String) (h : q ∈ asked) :
    addQ asked q = asked := by
  unfold addQ
  exact if_pos h

/-- Every category key yields a non-empty bank. -/
theorem fallbackBank_ne_nil (it : String) : fallbackBank it ≠ [] := by
  unfold fallbackBank
  repeat first | decide | split

/-- Taking the first five entries of a non-empty list is non-empty. -/
theorem take5_ne_nil {l : List String} (h : l ≠ []) : l.take 5 ≠ [] := by
  cases l with
  | nil => exact absurd rfl h
  | cons a t => simp [List.take]

/-- The question chosen by the demo-mode branch always comes from the bank
of the active category. -/
theorem fallbackGenerate_mem (it : String) (asked : List String) (r : Nat) :
    (fallbackGenerate it asked r).1 ∈ fallbackBank it := by
  unfold fallbackGenerate
  simp only
  split
  · exact List.take_subset 5 _
      (getD_mod_mem _ r "" (take5_ne_nil (fallbackBank_ne_nil it)))
  · next hne =>
    have hm := getD_mod_mem ((fallbackBank it).filter (fun q => decide (q ∉ asked))) r "" hne
    exact List.filter_subset' _ hm

/-- If some banked question is unused, the demo-mode branch never repeats a
question from `asked_questions`. -/
theorem fallbackGenerate_not_mem (it : String) (asked : List String) (r : Nat)
    (h : (fallbackBank it).filter (fun q => decide (q ∉ asked)) ≠ []) :
    (fallbackGenerate it asked r).1 ∉ asked := by
  unfold fallbackGenerate
  simp only
  rw [if_neg h]
  have hm := getD_mod_mem ((fallbackBank it).filter (fun q => decide (q ∉ asked))) r "" h
  have := List.of_mem_filter hm
  simpa using this

/-- The demo-mode branch returns a question it has inserted into the set. -/
theorem fallbackGenerate_fst_mem_snd (it : String) (asked : List String) (r : Nat) :
    (fallbackGenerate it asked r).1 ∈ (fallbackGenerate it asked r).2 := by
  unfold fallbackGenerate
  simp only
  split
  · dsimp only
    exact mem_addQ_self _ _
  · dsimp only
    exact mem_addQ_self _ _

/-- The exception branch returns a question it has inserted into the set. -/
theorem errorFallback_fst_mem_snd (asked : List String) :
    (errorFallback asked).1 ∈ (errorFallback asked).2 := by
  unfold errorFallback
  split
  · dsimp only
    exact mem_addQ_self _ _
  · dsimp only
    exact mem_addQ_self _ _

/-- In every branch, `generate_question` inserts the question it returns into
`asked_questions` before returning it. -/
theorem generate_question_mem_asked (it : String) (asked : List String)
    (mp : Bool) (b : AIResult) (rg : Option String) (r : Nat) :
    (generate_question it asked mp b rg r).1 ∈ (generate_question it asked mp b rg r).2 := by
  unfold generate_question
  split
  · exact fallbackGenerate_fst_mem_snd it asked r
  · split
    · exact errorFallback_fst_mem_snd asked
    · next text =>
      by_cases h0 : text = ""
      · rw [if_pos h0]
        exact errorFallback_fst_mem_snd asked
      · rw [if_neg h0]
        dsimp only
        by_cases h1 : cleanAIQuestion text = "" ∨ (cleanAIQuestion text).length < 10
        · rw [if_pos h1]
          exact errorFallback_fst_mem_snd asked
        · rw [if_neg h1]
          dsimp only
          exact mem_addQ_self _ _

/-- Every analysis of the inline demo-mode pool carries no follow-up. -/
theorem fallback_analyses_follow_up : ∀ a ∈ fallback_analyses, a.follow_up = none := by
  decide

/-- In demo mode the analysis is always drawn from the inline pool. -/
theorem analyze_response_fallback_mem (b : AnalysisResult) (r : Nat) :
    analyze_response false b r ∈ fallback_analyses := by
  unfold analyze_response
  rw [if_pos rfl]
  exact getD_mod_mem _ _ _ (by decide)

/-- In demo mode the recorded response carries the pool analysis, no
follow-up exchange, and the question handed to it. -/
theorem recordedResponse_fallback (q : String) (inp : TurnInput) :
    (recordedResponse q false inp).analysis ∈ fallback_analyses ∧
    (recordedResponse q false inp).follow_up = none ∧
    (recordedResponse q false inp).question = q := by
  have hA := analyze_response_fallback_mem inp.aBackend inp.aRand
  have hfu := fallback_analyses_follow_up _ hA
  refine ⟨hA, ?_, rfl⟩
  unfold recordedResponse
  dsimp only
  rw [hfu]
  exact if_neg (fun hc => absurd hc.1 (by decide))

/-- The demo-mode question generator, seen through `step`. -/
theorem step_question_fallback (st : BotState) (inp : TurnInput) :
    (generate_question st.interview_type st.asked_questions false
        inp.qBackend inp.qRegen inp.qRand).1 ∈ fallbackBank st.interview_type := by
  unfold generate_question
  rw [if_pos rfl]
  exact fallbackGenerate_mem _ _ _

/-- One demo-mode iteration on a plain answer: the answer is accepted, the
counter advances by one, and exactly one response — with a pool analysis, no
follow-up, and a banked question — is appended. -/
theorem step_plain (qc : Nat) (st : BotState) (inp : TurnInput)
    (hp : PlainEntry inp) :
    step qc st false inp = .next (qc + 1)
      { interview_type := st.interview_type,
        asked_questions := (generate_question st.interview_type st.asked_questions
            false inp.qBackend inp.qRegen inp.qRand).2,
        responses := st.responses ++
          [recordedResponse (generate_question st.interview_type st.asked_questions
              false inp.qBackend inp.qRegen inp.qRand).1 false inp] } := by
  obtain ⟨h1, h2, h3, h4, h5⟩ := hp
  unfold step
  dsimp only
  rw [if_neg h2, if_neg h3, if_neg (fun hc => h4 hc.1), if_neg h1,
    if_neg (fun hc => h5 hc.2)]

/-- Any demo-mode iteration preserves the interview type and either leaves
the responses unchanged or appends one response with a pool analysis, no
follow-up, and a banked question. -/
theorem stepState_fallback (qc : Nat) (st : BotState) (inp : TurnInput) :
    (stepState (step qc st false inp)).interview_type = st.interview_type ∧
    ((stepState (step qc st false inp)).responses = st.responses ∨
      ∃ t : Turn, (stepState (step qc st false inp)).responses = st.responses ++ [t] ∧
        t.analysis ∈ fallback_analyses ∧ t.follow_up = none ∧
        t.question ∈ fallbackBank st.interview_type) := by
  have hq := step_question_fallback st inp
  have hrec := recordedResponse_fallback
    (generate_question st.interview_type st.asked_questions false
      inp.qBackend inp.qRegen inp.qRand).1 inp
  unfold step
  dsimp only
  split
  · exact ⟨rfl, Or.inl rfl⟩
  · split
    · exact ⟨rfl, Or.inl rfl⟩
    · split
      · exact ⟨rfl, Or.inl rfl⟩
      · split
        · exact ⟨rfl, Or.inl rfl⟩
        · split
          · refine ⟨rfl, Or.inr ⟨_, rfl, hrec.1, hrec.2.1, ?_⟩⟩
            rw [hrec.2.2]
            exact hq
          · refine ⟨rfl, Or.inr ⟨_, rfl, hrec.1, hrec.2.1, ?_⟩⟩
            rw [hrec.2.2]
            exact hq

/-- Every response recorded by a demo-mode run either was present at the
start or carries a pool analysis, no follow-up, and a banked question. -/
theorem runTurns_fallback_mem :
    ∀ (script : List TurnInput) (qc : Nat) (st : BotState) (t : Turn),
      t ∈ (runTurns false qc st script).responses →
      t ∈ st.responses ∨
        (t.analysis ∈ fallback_analyses ∧ t.follow_up = none ∧
         t.question ∈ fallbackBank st.interview_type) := by
  intro script
  induction script with
  | nil => intro qc st t ht; exact Or.inl ht
  | cons inp rest ih =>
    intro qc st t ht
    by_cases hqc : qc < max_questions
    · simp only [runTurns, if_pos hqc] at ht
      obtain ⟨hty, hresp⟩ := stepState_fallback qc st inp
      cases hstep : step qc st false inp with
      | halt st2 =>
        rw [hstep] at ht hty hresp
        simp only [stepState] at hty hresp
        rcases hresp with heq | ⟨t2, heq, hprops⟩
        · rw [heq] at ht
          exact Or.inl ht
        · rw [heq] at ht
          rcases List.mem_append.mp ht with hmem | hmem
          · exact Or.inl hmem
          · rw [List.mem_singleton.mp hmem]
            exact Or.inr hprops
      | next qc2 st2 =>
        rw [hstep] at ht hty hresp
        simp only [stepState] at hty hresp
        rcases ih qc2 st2 t ht with hmem | hprops
        · rcases hresp with heq | ⟨t2, heq, hprops2⟩
          · rw [heq] at hmem
            exact Or.inl hmem
          · rw [heq] at hmem
            rcases List.mem_append.mp hmem with hmem2 | hmem2
            · exact Or.inl hmem2
            · rw [List.mem_singleton.mp hmem2]
              exact Or.inr hprops2
        · rw [hty] at hprops
          exact Or.inr hprops
    · simp only [runTurns, if_neg hqc] at ht
      exact Or.inl ht

/-- A demo-mode run over a script of plain answers records
`min (max_questions - question_count) script.length` further responses. -/
theorem runTurns_plain_length :
    ∀ (script : List TurnInput) (qc : Nat) (st : BotState),
      (∀ inp ∈ script, PlainEntry inp) →
      (runTurns false qc st script).responses.length
        = st.responses.length + min (max_questions - qc) script.length := by
  intro script
  induction script with
  | nil =>
    intro qc st _
    simp [runTurns]
  | cons inp rest ih =>
    intro qc st hp
    by_cases hqc : qc < max_questions
    · have hstep := step_plain qc st inp (hp inp (by simp))
      simp only [runTurns, if_pos hqc, hstep]
      rw [ih (qc + 1) _ (fun i hi => hp i (by simp [hi]))]
      simp only [List.length_append, List.length_cons, List.length_nil]
      unfold max_questions at hqc ⊢
      omega
    · simp only [runTurns, if_neg hqc]
      unfold max_questions at hqc ⊢
      simp only [List.length_cons]
      omega

/-- Sum of non-negative turn scores is non-negative. -/
theorem sumScores_nonneg :
    ∀ rs : List Turn, (∀ t ∈ rs, 0 ≤ t.score) → 0 ≤ sumScores rs := by
  intro rs
  induction rs with
  | nil => intro _; simp [sumScores]
  | cons a l ih =>
    intro h
    have ha := h a (by simp)
    have hl := ih (fun t ht => h t (by simp [ht]))
    unfold sumScores at hl ⊢
    simp only [List.map_cons, List.sum_cons]
    omega

/-- Sum of turn scores bounded by ten each is bounded by ten per turn. -/
theorem sumScores_le :
    ∀ rs : List Turn, (∀ t ∈ rs, t.score ≤ 10) → sumScores rs ≤ 10 * rs.length := by
  intro rs
  induction rs with
  | nil => intro _; simp [sumScores]
  | cons a l ih =>
    intro h
    have ha := h a (by simp)
    have hl := ih (fun t ht => h t (by simp [ht]))
    unfold sumScores at hl ⊢
    simp only [List.map_cons, List.sum_cons, List.length_cons]
    push_cast
    omega

/-- For a non-empty response list the computed average is the arithmetic
mean of the scores. -/
theorem avg_score_eq (rs : List Turn) (hne : rs ≠ []) :
    avg_score rs = (sumScores rs : Rat) / (rs.length : Rat) := by
  unfold avg_score
  rw [if_neg hne]

/-- The mean of scores lying in `[0, 10]` lies in `[0, 10]`. -/
theorem avg_score_bounds (rs : List Turn) (hne : rs ≠ [])
    (h : ∀ t ∈ rs, 0 ≤ t.score ∧ t.score ≤ 10) :
    0 ≤ avg_score rs ∧ avg_score rs ≤ 10 := by
  rw [avg_score_eq rs hne]
  have hlen : 0 < rs.length := List.length_pos.mpr hne
  have hlenQ : (0 : Rat) < (rs.length : Rat) := by exact_mod_cast hlen
  have h0 : 0 ≤ sumScores rs := sumScores_nonneg rs (fun t ht => (h t ht).1)
  have h10 : sumScores rs ≤ 10 * rs.length := sumScores_le rs (fun t ht => (h t ht).2)
  constructor
  · apply div_nonneg _ (le_of_lt hlenQ)
    exact_mod_cast h0
  · rw [div_le_iff₀ hlenQ]
    calc ((sumScores rs : Int) : Rat) ≤ ((10 * rs.length : Int) : Rat) := by
          exact_mod_cast h10
      _ = 10 * (rs.length : Rat) := by push_cast; ring

end IV2

/-! ### Concrete inputs used by the claim theorems -/

/-- A question the AI backend could return; never part of any static bank. -/
def dupQ : String := "Describe your approach to mentoring junior engineers."

/-- Another off-bank AI question. -/
def extraQ : String := "An off-bank question from the AI backend."

/-- First scripted turn of the duplicate scenario: the backend returns
`dupQ`, the answer is an ordinary plain answer. -/
def c1entry1 : TurnInput :=
  { qBackend := .ok dupQ, qRegen := none, qRand := 0,
    userInput := "My first answer has plenty of detail.",
    aBackend := .fail, aRand := 0, response_time := 4, timestamp := "10:00:00",
    followUpAnswer := "", contChoice := "y" }

/-- Second scripted turn: the backend returns `dupQ` again and the
regeneration attempt returns `dupQ` yet again. -/
def c1entry2 : TurnInput :=
  { c1entry1 with
    qRegen := some dupQ,
    userInput := "My second answer has plenty of detail too.",
    timestamp := "10:01:00" }

/-! ### Claims -/

/-- C1 fails on the code: with the backend present, when the model returns a
question already in `asked_questions` and the single regeneration attempt
returns the same text, `generate_question` returns the duplicate, so two
recorded Turns carry identical question text while the behavioral fallback
bank is entirely unused (far from exhausted). -/
theorem c1_counterexample :
    ((IV2.runTurns true 0 ⟨"behavioral", [], []⟩ [c1entry1, c1entry2]).responses.map
        Turn.question) = [dupQ, dupQ] ∧
    (IV2.fallbackBank "behavioral").filter
        (fun q => decide (q ∉ (IV2.runTurns true 0 ⟨"behavioral", [], []⟩
          [c1entry1, c1entry2]).asked_questions)) ≠ [] := by
  exact ⟨by decide, by decide⟩

/-- C1 (amended): in the text variant (`Interviewer2.py`) every question
returned by `generate_question` is inserted into `asked_questions` before
being returned, and in fallback mode the generator never returns a question
already in `asked_questions` as long as some banked question of the active
category is unused; the unless-clause of the claim must however also cover
the AI-backed path, where a duplicate that survives its single regeneration
attempt is returned verbatim (see the counterexample), and the speech
variant inserts nothing at all. -/
theorem c1_amended_holds :
    (∀ (it : String) (asked : List String) (mp : Bool) (b : AIResult)
        (rg : Option String) (r : Nat),
      (IV2.generate_question it asked mp b rg r).1
        ∈ (IV2.generate_question it asked mp b rg r).2) ∧
    (∀ (it : String) (asked : List String) (r : Nat),
      (IV2.fallbackBank it).filter (fun q => decide (q ∉ asked)) ≠ [] →
      (IV2.fallbackGenerate it asked r).1 ∉ asked) :=
  ⟨IV2.generate_question_mem_asked, IV2.fallbackGenerate_not_mem⟩

/-- C1 witness: the no-repeat part of the amended claim at a concrete
input. -/
theorem c1_witness :
    (IV2.fallbackBank "behavioral").filter
        (fun q => decide (q ∉ ([dupQ] : List String))) ≠ [] ∧
    (IV2.fallbackGenerate "behavioral" [dupQ] 3).1 ∉ ([dupQ] : List String) :=
  ⟨by decide, c1_amended_holds.2 "behavioral" [dupQ] 3 (by decide)⟩

/-- C2 fails on the code: with `asked_questions = [dupQ]`, a backend answer
equal to `dupQ` and a regeneration that also returns `dupQ`, the generator
returns the duplicate itself — not a fallback-bank question — and the
history still contains only `dupQ`. -/
theorem c2_counterexample :
    IV2.generate_question "behavioral" [dupQ] true (.ok dupQ) (some dupQ) 0
      = (dupQ, [dupQ]) ∧
    dupQ ∉ IV2.errorFallbackQuestions ∧
    dupQ ∉ IV2.fallbackBank "behavioral" := by
  exact ⟨by decide, by decide, by decide⟩

/-- C2 (amended): when the cleaned AI question collides with
`QuestionHistory`, exactly one regeneration attempt is issued; if the
regeneration succeeds its cleaned text is returned and inserted even when it
also collides, and if it fails the original duplicate is returned with the
history unchanged — no fallback-bank question is substituted in either
case. -/
theorem c2_amended_holds (it : String) (asked : List String) (text t2 : String)
    (r : Nat) (h0 : text ≠ "")
    (hdup : IV2.cleanAIQuestion text ∈ asked)
    (hlen : ¬(IV2.cleanAIQuestion text = "" ∨ (IV2.cleanAIQuestion text).length < 10)) :
    (t2 ≠ "" → IV2.generate_question it asked true (.ok text) (some t2) r
        = (IV2.cleanAIQuestion t2, IV2.addQ asked (IV2.cleanAIQuestion t2))) ∧
    (IV2.generate_question it asked true (.ok text) none r
        = (IV2.cleanAIQuestion text, asked)) := by
  constructor
  · intro ht2
    unfold IV2.generate_question
    rw [if_neg (by decide)]
    dsimp only
    rw [if_neg h0]
    rw [if_neg hlen]
    rw [if_pos hdup]
    rw [if_neg ht2]
  · unfold IV2.generate_question
    rw [if_neg (by decide)]
    dsimp only
    rw [if_neg h0]
    rw [if_neg hlen]
    rw [if_pos hdup]
    rw [IV2.addQ_mem_eq asked _ hdup]

/-- C2 witness: the amended claim at the concrete duplicate scenario. -/
theorem c2_witness :
    IV2.generate_question "behavioral" [dupQ] true (.ok dupQ) (some dupQ) 1
      = (IV2.cleanAIQuestion dupQ, IV2.addQ [dupQ] (IV2.cleanAIQuestion dupQ)) ∧
    IV2.generate_question "behavioral" [dupQ] true (.ok dupQ) none 1
      = (IV2.cleanAIQuestion dupQ, [dupQ]) :=
  ⟨(c2_amended_holds "behavioral" [dupQ] dupQ dupQ 1 (by decide) (by decide) (by decide)).1
      (by decide),
   (c2_amended_holds "behavioral" [dupQ] dupQ dupQ 1 (by decide) (by decide) (by decide)).2⟩

/-- C3 fails on the code: once every behavioral bank question has been used,
the fallback branch clears the entire `asked_questions` set — the off-bank
question `extraQ` previously in the history is gone — leaving only the newly
selected question. -/
theorem c3_counterexample :
    (IV2.fallbackGenerate "behavioral" (IV2.behavioralBank ++ [extraQ]) 0).2
      = ["Tell me about a time when you had to work with a difficult team member."] ∧
    extraQ ∉ (IV2.fallbackGenerate "behavioral" (IV2.behavioralBank ++ [extraQ]) 0).2 := by
  exact ⟨by decide, by decide⟩

/-- C3 (amended): when every banked question of the active category has been
used, the generator clears the *whole* `asked_questions` set (not just the
bank's entries) and selects from the first five entries of that bank;
afterwards the history consists of exactly the selected question, so the
session never stalls. -/
theorem c3_amended_holds (it : String) (asked : List String) (r : Nat)
    (h : (IV2.fallbackBank it).filter (fun q => decide (q ∉ asked)) = []) :
    (IV2.fallbackGenerate it asked r).1 ∈ (IV2.fallbackBank it).take 5 ∧
    (IV2.fallbackGenerate it asked r).2 = [(IV2.fallbackGenerate it asked r).1] := by
  unfold IV2.fallbackGenerate
  simp only
  rw [if_pos h]
  dsimp only
  refine ⟨getD_mod_mem _ _ _ (IV2.take5_ne_nil (IV2.fallbackBank_ne_nil it)), ?_⟩
  unfold IV2.addQ
  rw [if_neg (by simp)]
  rfl

/-- C3 witness: the amended claim with the behavioral bank exhausted. -/
theorem c3_witness :
    (IV2.fallbackBank "behavioral").filter
        (fun q => decide (q ∉ IV2.behavioralBank)) = [] ∧
    ((IV2.fallbackGenerate "behavioral" IV2.behavioralBank 2).1
        ∈ (IV2.fallbackBank "behavioral").take 5 ∧
      (IV2.fallbackGenerate "behavioral" IV2.behavioralBank 2).2
        = [(IV2.fallbackGenerate "behavioral" IV2.behavioralBank 2).1]) :=
  ⟨by decide, c3_amended_holds "behavioral" IV2.behavioralBank 2 (by decide)⟩

/-- C4 fails on the code: an unparsable analysis payload yields one of the
`_get_fallback_analysis` pool entries — score 8 at index 0, with non-empty
strength and improvement lists — not the score-0 / empty-list degraded
default. -/
theorem c4_counterexample :
    (IV2.analyze_response true .unparsable 0).score = 8 ∧
    (IV2.analyze_response true .unparsable 0).score ≠ 0 ∧
    (IV2.analyze_response true .unparsable 0).strengths ≠ [] ∧
    (IV2.analyze_response true .unparsable 0).improvements ≠ [] := by
  exact ⟨by decide, by decide, by decide, by decide⟩

/-- C4 (amended): when the backend is present but the analysis payload is
unparsable, the resulting analysis is drawn from the fixed
`_get_fallback_analysis` pool — non-empty feedback, score between 7 and 9,
non-empty strength and improvement lists — and the turn continues; the
score-0 / empty-list degraded default applies instead to a *parsed* payload
with missing required keys. -/
theorem c4_amended_holds :
    (∀ r : Nat, IV2.analyze_response true .unparsable r ∈ IV2.fallback_analyses_api) ∧
    (∀ a ∈ IV2.fallback_analyses_api,
      a.feedback ≠ "" ∧ 7 ≤ a.score ∧ a.score ≤ 9 ∧
      a.strengths ≠ [] ∧ a.improvements ≠ []) ∧
    (∀ (r : Nat) (fu : Option String) (ki : Option (List String)),
      IV2.analyze_response true (.parsed none none none none fu ki) r
        = { feedback := "Not provided", score := 0, strengths := [],
            improvements := [], follow_up := fu }) := by
  refine ⟨?_, by decide, ?_⟩
  · intro r
    unfold IV2.analyze_response
    rw [if_neg (by decide)]
    exact getD_mod_mem _ _ _ (by decide)
  · intro r fu ki
    unfold IV2.analyze_response
    rw [if_neg (by decide)]
    rfl

/-- C4 witness: the amended claim evaluated at a concrete unparsable
payload. -/
theorem c4_witness :
    IV2.analyze_response true .unparsable 1 ∈ IV2.fallback_analyses_api ∧
    ((IV2.analyze_response true .unparsable 1).feedback ≠ "" ∧
      7 ≤ (IV2.analyze_response true .unparsable 1).score ∧
      (IV2.analyze_response true .unparsable 1).score ≤ 9 ∧
      (IV2.analyze_response true .unparsable 1).strengths ≠ [] ∧
      (IV2.analyze_response true .unparsable 1).improvements ≠ []) :=
  ⟨c4_amended_holds.1 1, c4_amended_holds.2.1 _ (c4_amended_holds.1 1)⟩

/-- C5: with the backend permanently failing, a session over any script of
at least ten plain answers completes the full configured maximum of ten
turns; every recorded analysis comes from the fixed fallback pool, every
question from the category's fallback bank, and `end_interview` yields a
non-null overall report with a defined average score. -/
theorem c5_total_fallback (it : String) (script : List TurnInput)
    (ob : Option OverallReport)
    (hplain : ∀ inp ∈ script, IV2.PlainEntry inp)
    (hlen : 10 ≤ script.length) :
    (IV2.runTurns false 0 ⟨it, [], []⟩ script).responses.length = 10 ∧
    (∀ t ∈ (IV2.runTurns false 0 ⟨it, [], []⟩ script).responses,
      t.analysis ∈ IV2.fallback_analyses ∧ t.question ∈ IV2.fallbackBank it) ∧
    IV2.end_interview false (IV2.runTurns false 0 ⟨it, [], []⟩ script).responses ob
      = ⟨some ⟨"Interview completed successfully!"⟩,
         some (IV2.avg_score (IV2.runTurns false 0 ⟨it, [], []⟩ script).responses),
         true⟩ := by
  have hlen10 : (IV2.runTurns false 0 ⟨it, [], []⟩ script).responses.length = 10 := by
    rw [IV2.runTurns_plain_length script 0 ⟨it, [], []⟩ hplain]
    show ([] : List Turn).length + min (IV2.max_questions - 0) script.length = 10
    simp only [List.length_nil]
    unfold IV2.max_questions
    omega
  refine ⟨hlen10, ?_, ?_⟩
  · intro t ht
    rcases IV2.runTurns_fallback_mem script 0 _ t ht with h | ⟨h1, _, h3⟩
    · exact absurd h (by simp)
    · exact ⟨h1, h3⟩
  · have hne : (IV2.runTurns false 0 ⟨it, [], []⟩ script).responses ≠ [] := by
      intro h
      rw [h] at hlen10
      exact absurd hlen10 (by decide)
    unfold IV2.end_interview
    rw [if_neg hne]
    unfold IV2.generate_overall_analysis
    rw [if_pos (Or.inl rfl)]

/-- A script entry that is a plain in-range answer, used to instantiate the
total-fallback session. -/
def c5entry : TurnInput :=
  { qBackend := .fail, qRegen := none, qRand := 0,
    userInput := "Here is a solid, detailed answer.",
    aBackend := .fail, aRand := 0, response_time := 5, timestamp := "09:00:00",
    followUpAnswer := "", contChoice := "y" }

/-- Ten plain answers: one full fallback-only session. -/
def c5script : List TurnInput := List.replicate 10 c5entry

/-- C5 witness: the full-session theorem applied to a concrete ten-answer
script. -/
theorem c5_witness :
    (IV2.runTurns false 0 ⟨"behavioral", [], []⟩ c5script).responses.length = 10 ∧
    IV2.end_interview false
        (IV2.runTurns false 0 ⟨"behavioral", [], []⟩ c5script).responses none
      = ⟨some ⟨"Interview completed successfully!"⟩,
         some (IV2.avg_score
           (IV2.runTurns false 0 ⟨"behavioral", [], []⟩ c5script).responses),
         true⟩ :=
  ⟨(c5_total_fallback "behavioral" c5script none (by decide) (by decide)).1,
   (c5_total_fallback "behavioral" c5script none (by decide) (by decide)).2.2⟩

/-- A scripted turn whose parsed analysis carries score 11. -/
def c6entry : TurnInput :=
  { qBackend := .ok extraQ, qRegen := none, qRand := 0,
    userInput := "I scored very well on this one.",
    aBackend := .parsed (some "Impressive answer.") (some 11) (some ["Depth"])
      (some ["None"]) none none,
    aRand := 0, response_time := 2, timestamp := "11:00:00",
    followUpAnswer := "", contChoice := "y" }

/-- C6 fails on the code: a parsed analysis score is stored without range
validation, so a backend score of 11 is attached to the Turn verbatim and
the session average equals 11, outside `[0, 10]`. -/
theorem c6_counterexample :
    ((IV2.runTurns true 0 ⟨"general", [], []⟩ [c6entry]).responses.map Turn.score)
      = [11] ∧
    IV2.avg_score (IV2.runTurns true 0 ⟨"general", [], []⟩ [c6entry]).responses = 11 ∧
    ¬((11 : Rat) ≤ 10) := by
  have hs : IV2.sumScores
      (IV2.runTurns true 0 ⟨"general", [], []⟩ [c6entry]).responses = 11 := by decide
  have hl : (IV2.runTurns true 0 ⟨"general", [], []⟩ [c6entry]).responses.length = 1 := by
    decide
  have hne : (IV2.runTurns true 0 ⟨"general", [], []⟩ [c6entry]).responses ≠ [] := by
    intro h
    rw [h] at hl
    exact absurd hl (by decide)
  refine ⟨by decide, ?_, by norm_num⟩
  rw [IV2.avg_score_eq _ hne, hs, hl]
  norm_num

/-- C6 (amended): every analysis drawn from the fixed fallback pools has a
score in `[0, 10]` (in fact in `[7, 9]`); the report's aggregate score equals
the arithmetic mean of the constituent turn scores, and that mean lies in
`[0, 10]` whenever all turn scores do — but scores parsed from backend JSON
are stored without range validation and may fall outside `[0, 10]`. -/
theorem c6_amended_holds :
    (∀ a ∈ IV2.fallback_analyses, 0 ≤ a.score ∧ a.score ≤ 10) ∧
    (∀ a ∈ IV2.fallback_analyses_api, 0 ≤ a.score ∧ a.score ≤ 10) ∧
    (∀ (mp : Bool) (rs : List Turn) (ob : Option OverallReport), rs ≠ [] →
      (IV2.end_interview mp rs ob).average = some (IV2.avg_score rs)) ∧
    (∀ rs : List Turn, rs ≠ [] →
      IV2.avg_score rs = (IV2.sumScores rs : Rat) / (rs.length : Rat)) ∧
    (∀ rs : List Turn, rs ≠ [] → (∀ t ∈ rs, 0 ≤ t.score ∧ t.score ≤ 10) →
      0 ≤ IV2.avg_score rs ∧ IV2.avg_score rs ≤ 10) := by
  refine ⟨by decide, by decide, ?_, IV2.avg_score_eq, IV2.avg_score_bounds⟩
  intro mp rs ob hne
  unfold IV2.end_interview
  rw [if_neg hne]

/-- A sample in-range turn used to instantiate score statements. -/
def sampleTurn : Turn :=
  { question := "What motivates you in your career?",
    answer := "Learning new things and shipping useful software.",
    response_time := 6, timestamp := "14:00:00",
    analysis := { feedback := "Great answer! You provided good detail and structure.",
                  score := 8,
                  strengths := ["Clear communication", "Good examples"],
                  improvements := ["Consider adding more specific metrics or outcomes"],
                  follow_up := none },
    score := 8, follow_up := none }

/-- C6 witness: the amended claim at a concrete one-turn session. -/
theorem c6_witness :
    (IV2.end_interview false [sampleTurn] none).average
      = some (IV2.avg_score [sampleTurn]) ∧
    IV2.avg_score [sampleTurn]
      = (IV2.sumScores [sampleTurn] : Rat) / (([sampleTurn] : List Turn).length : Rat) ∧
    (0 ≤ IV2.avg_score [sampleTurn] ∧ IV2.avg_score [sampleTurn] ≤ 10) :=
  ⟨c6_amended_holds.2.2.1 false [sampleTurn] none (by decide),
   c6_amended_holds.2.2.2.1 [sampleTurn] (by decide),
   c6_amended_holds.2.2.2.2 [sampleTurn] (by decide) (by decide)⟩

/-- A three-character answer: below the speech variant's minimum length. -/
def c7entry : TurnInput :=
  { qBackend := .fail, qRegen := none, qRand := 0, userInput := "abc",
    aBackend := .fail, aRand := 0, response_time := 1, timestamp := "12:00:00",
    followUpAnswer := "", contChoice := "y" }

/-- An all-whitespace input, stripped to empty. -/
def c7emptyEntry : TurnInput :=
  { c7entry with userInput := "   " }

/-- C7 fails on the code: in `Interviewer2.py` the three-character non-command
input `"abc"` is *accepted* — a Turn with answer `"abc"` is recorded and the
turn counter increments — because the text variant only rejects empty input;
the five-character minimum exists only in the speech variant. -/
theorem c7_counterexample :
    ((IV2.stepState (IV2.step 0 ⟨"general", [], []⟩ false c7entry)).responses.map
        Turn.answer) = ["abc"] ∧
    IV2.step 0 ⟨"general", [], []⟩ false c7entry
      = .next 1 (IV2.stepState (IV2.step 0 ⟨"general", [], []⟩ false c7entry)) := by
  exact ⟨by decide, by decide⟩

/-- C7 (amended): in the speech variant, any non-command input whose stripped
text is shorter than five characters is rejected with a re-prompt — no turn
recorded, counter unchanged, the loop re-enters questioning; in the text
variant only empty (after stripping) input is rejected that way, while any
non-empty non-command input — even shorter than five characters — is
accepted and recorded as a Turn. -/
theorem c7_amended_holds :
    (∀ (qc : Nat) (st : SP.SPState) (mp : Bool) (inp : TurnInput),
      pyLower inp.userInput ≠ "end" → pyLower inp.userInput ≠ "next" →
      pyLower inp.userInput ≠ "repeat" → pyLower inp.userInput ≠ "feedback" →
      pyLower inp.userInput ≠ "help" →
      (pyStripWs inp.userInput).length < 5 →
      SP.step qc st mp inp = .next qc st) ∧
    (∀ (qc : Nat) (st : IV2.BotState) (mp : Bool) (inp : TurnInput),
      pyStripWs inp.userInput = "" →
      IV2.step qc st mp inp = .next qc
        { st with asked_questions := (IV2.generate_question st.interview_type
            st.asked_questions mp inp.qBackend inp.qRegen inp.qRand).2 }) ∧
    (∀ (qc : Nat) (st : IV2.BotState) (mp : Bool) (inp : TurnInput),
      pyStripWs inp.userInput ≠ "" →
      pyLower (pyStripWs inp.userInput) ≠ "end" →
      pyLower (pyStripWs inp.userInput) ≠ "next" →
      pyLower (pyStripWs inp.userInput) ≠ "feedback" →
      (IV2.stepState (IV2.step qc st mp inp)).responses
        = st.responses ++
          [IV2.recordedResponse (IV2.generate_question st.interview_type
              st.asked_questions mp inp.qBackend inp.qRegen inp.qRand).1 mp inp]) := by
  refine ⟨?_, ?_, ?_⟩
  · intro qc st mp inp h1 h2 h3 h4 h5 hlen
    unfold SP.step
    dsimp only
    rw [if_neg h1, if_neg h2, if_neg h3, if_neg (fun hc => h4 hc.1), if_neg h5,
      if_pos (Or.inr hlen)]
  · intro qc st mp inp he
    unfold IV2.step
    dsimp only
    rw [he]
    rw [if_neg (by decide), if_neg (by decide), if_neg (fun hc => absurd hc.1 (by decide)),
      if_pos rfl]
  · intro qc st mp inp h1 h2 h3 h4
    unfold IV2.step
    dsimp only
    rw [if_neg h2, if_neg h3, if_neg (fun hc => h4 hc.1), if_neg h1]
    split
    · rfl
    · rfl

/-- C7 witness: the amended claim at concrete inputs — the short input is
rejected by the speech step, the empty input by the text step, and the
three-character input is recorded by the text step. -/
theorem c7_witness :
    SP.step 0 ⟨false, []⟩ false c7entry = .next 0 ⟨false, []⟩ ∧
    IV2.step 0 ⟨"general", [], []⟩ false c7emptyEntry
      = .next 0 { interview_type := "general",
                  asked_questions := (IV2.generate_question "general" [] false
                    .fail none 0).2,
                  responses := [] } ∧
    (IV2.stepState (IV2.step 0 ⟨"general", [], []⟩ false c7entry)).responses
      = [] ++ [IV2.recordedResponse (IV2.generate_question "general" [] false
          .fail none 0).1 false c7entry] :=
  ⟨c7_amended_holds.1 0 ⟨false, []⟩ false c7entry (by decide) (by decide) (by decide)
      (by decide) (by decide) (by decide),
   c7_amended_holds.2.1 0 ⟨"general", [], []⟩ false c7emptyEntry (by decide),
   c7_amended_holds.2.2 0 ⟨"general", [], []⟩ false c7entry (by decide) (by decide)
      (by decide) (by decide)⟩

/-- The input `feedback` typed with no prior turns. -/
def c8entry : TurnInput :=
  { qBackend := .fail, qRegen := none, qRand := 0, userInput := "feedback",
    aBackend := .fail, aRand := 0, response_time := 1, timestamp := "13:00:00",
    followUpAnswer := "", contChoice := "y" }

/-- C8 fails on the code: with zero recorded Turns, the input `feedback` is
*not* a no-op — it falls through the command dispatch and is recorded as a
regular answer, so a Turn with answer text `"feedback"` is appended and the
turn counter increments. -/
theorem c8_counterexample :
    ((IV2.stepState (IV2.step 0 ⟨"general", [], []⟩ false c8entry)).responses.map
        Turn.answer) = ["feedback"] ∧
    IV2.step 0 ⟨"general", [], []⟩ false c8entry
      = .next 1 (IV2.stepState (IV2.step 0 ⟨"general", [], []⟩ false c8entry)) := by
  exact ⟨by decide, by decide⟩

/-- C8 (amended): with at least one prior Turn, `feedback` shows the
feedback display and leaves the responses and the turn counter unchanged (in
both variants); with zero prior Turns, `feedback` is not intercepted — it is
treated as a regular answer, a Turn whose answer text is `feedback` is
recorded, and the turn counter increments. -/
theorem c8_amended_holds :
    (∀ (qc : Nat) (st : IV2.BotState) (mp : Bool) (inp : TurnInput),
      pyStripWs inp.userInput = "feedback" → st.responses ≠ [] →
      IV2.step qc st mp inp = .next qc
        { st with asked_questions := (IV2.generate_question st.interview_type
            st.asked_questions mp inp.qBackend inp.qRegen inp.qRand).2 }) ∧
    (∀ (qc : Nat) (st : IV2.BotState) (mp : Bool) (inp : TurnInput),
      pyStripWs inp.userInput = "feedback" → st.responses = [] →
      (IV2.stepState (IV2.step qc st mp inp)).responses
        = st.responses ++
          [IV2.recordedResponse (IV2.generate_question st.interview_type
              st.asked_questions mp inp.qBackend inp.qRegen inp.qRand).1 mp inp]) ∧
    (∀ (qc : Nat) (st : SP.SPState) (mp : Bool) (inp : TurnInput),
      inp.userInput = "feedback" → st.responses ≠ [] →
      SP.step qc st mp inp = .next qc st) ∧
    (∀ (qc : Nat) (st : SP.SPState) (mp : Bool) (inp : TurnInput),
      inp.userInput = "feedback" → st.responses = [] →
      (SP.stepState (SP.step qc st mp inp)).responses
        = st.responses ++
          [SP.recordedResponse (SP.generate_question mp inp.qBackend inp.qRand)
              st.speech_mode mp inp]) := by
  refine ⟨?_, ?_, ?_, ?_⟩
  · intro qc st mp inp hf hne
    unfold IV2.step
    dsimp only
    rw [hf]
    rw [if_neg (by decide), if_neg (by decide), if_pos ⟨by decide, hne⟩]
  · intro qc st mp inp hf hresp
    unfold IV2.step
    dsimp only
    rw [hf]
    rw [if_neg (by decide), if_neg (by decide),
      if_neg (fun hc => hc.2 hresp), if_neg (by decide)]
    split
    · rfl
    · rfl
  · intro qc st mp inp hf hne
    unfold SP.step
    dsimp only
    rw [hf]
    rw [if_neg (by decide), if_neg (by decide), if_neg (by decide),
      if_pos ⟨by decide, hne⟩]
  · intro qc st mp inp hf hresp
    unfold SP.step
    dsimp only
    rw [hf]
    rw [if_neg (by decide), if_neg (by decide), if_neg (by decide),
      if_neg (fun hc => hc.2 hresp), if_neg (by decide), if_neg (by decide)]
    split
    · rfl
    · rfl

/-- A sample recorded speech-variant turn. -/
def sampleSPTurn : SP.SPTurn :=
  { question := "Tell me about yourself and your background.",
    answer := "I build backend services and enjoy mentoring.",
    response_time := 7, timestamp := "15:00:00",
    analysis := { feedback := some "API not available. Great answer!",
                  score := some 7,
                  strengths := some ["Good communication", "Clear thinking"],
                  improvements := some ["Consider more specific examples"],
                  follow_up := none, key_insights := none },
    score := 7, input_method := "text", follow_up := none }

/-- C8 witness: the amended claim at concrete inputs, with and without a
prior turn, in both variants. -/
theorem c8_witness :
    IV2.step 0 ⟨"general", [], [sampleTurn]⟩ false c8entry
      = .next 0 { interview_type := "general",
                  asked_questions := (IV2.generate_question "general" [] false
                    .fail none 0).2,
                  responses := [sampleTurn] } ∧
    (IV2.stepState (IV2.step 0 ⟨"general", [], []⟩ false c8entry)).responses
      = [] ++ [IV2.recordedResponse (IV2.generate_question "general" [] false
          .fail none 0).1 false c8entry] ∧
    SP.step 0 ⟨false, [sampleSPTurn]⟩ false c8entry
      = .next 0 ⟨false, [sampleSPTurn]⟩ ∧
    (SP.stepState (SP.step 0 ⟨false, []⟩ false c8entry)).responses
      = [] ++ [SP.recordedResponse (SP.generate_question false .fail 0) false
          false c8entry] := by
  refine ⟨?_, ?_, ?_, ?_⟩
  · exact c8_amended_holds.1 0 ⟨"general", [], [sampleTurn]⟩ false c8entry (by decide)
      (by decide)
  · exact c8_amended_holds.2.1 0 ⟨"general", [], []⟩ false c8entry (by decide) rfl
  · exact c8_amended_holds.2.2.1 0 ⟨false, [sampleSPTurn]⟩ false c8entry rfl (by decide)
  · exact c8_amended_holds.2.2.2 0 ⟨false, []⟩ false c8entry rfl rfl

/-- C9: when the backend is absent for the whole session, no recorded Turn
ever has a follow-up attached — every inline fallback-pool analysis carries
`follow_up = None` and a follow-up is only solicited when the analysis
proposes a truthy one; likewise the speech variant's demo-mode analysis
always carries `follow_up = None`. -/
theorem c9_no_followups :
    (∀ (it : String) (script : List TurnInput),
      ((IV2.runTurns false 0 ⟨it, [], []⟩ script).responses.all
          (fun t => t.follow_up.isNone)) = true) ∧
    (∀ (b : AnalysisResult) (r : Nat), (SP.analyze_response false b r).follow_up = none) := by
  constructor
  · intro it script
    rw [List.all_eq_true]
    intro t ht
    rcases IV2.runTurns_fallback_mem script 0 _ t ht with h | ⟨_, hfu, _⟩
    · exact absurd h (by simp)
    · rw [hfu]
      rfl
  · intro b r
    rfl

/-- C10: reaching the end with zero recorded Turns produces no overall
report, no average, and never offers the save prompt — `end_interview`
returns early in both variants. -/
theorem c10_no_report :
    (∀ (mp : Bool) (ob : Option OverallReport),
      IV2.end_interview mp [] ob = ⟨none, none, false⟩) ∧
    (∀ (mp : Bool) (ob : Option OverallReport),
      SP.end_interview mp [] ob = ⟨none, none, false⟩) :=
  ⟨fun _ _ => rfl, fun _ _ => rfl⟩

end InterviewSim
